import Mathlib

/-!
Verification of the CreditCardRewardsMaximizer recommendation core
(`backend/agents.py`): a shallow embedding in Lean 4 of

* `RateLimitHandler.parse_rate_limit_error`, `should_retry`, `wait_with_backoff`;
* `AgenticRecommendationSystem.calculate_card_value`,
  `_invoke_llm_with_retry`, `_build_enhanced_explanation`,
  `_build_alternatives_from_scores`, and `get_recommendation`.

Modelling conventions:

* Python floats are modelled as exact rationals (`ℚ`); the claims under
  study concern the algebraic structure of the computations, not IEEE-754
  rounding of individual digits.
* Python strings are modelled as Lean `String`; every string operation the
  source uses (`lower`, `strip`, `in`, slicing, `join`, `replace`,
  `re.search`) is given an explicit structural definition over the
  underlying character list, mirroring its Python semantics on ASCII text.
* Python dicts with fixed key sets are modelled as structures; the two
  reward-rate dicts, which have dynamic keys, are association lists with
  `get`-style lookup.
* The external LLM chain is modelled by a stream
  `outcomes : ℕ → CallOutcome` giving the result of each successive
  external call; exceptions are modelled as explicit result values.
* `time.sleep` has no observable effect on any value the claims mention,
  so `wait_with_backoff` returns the slept duration (`none` models the
  `TypeError` Python would raise when `wait_seconds` is `None`).
-/

namespace CCRM

/-! ### Python string primitives, modelled structurally -/

/-- Model of list-prefix testing, used to build Python's `in` operator. -/
def listStartsWith : List Char → List Char → Bool
  | [], _ => true
  | _ :: _, [] => false
  | a :: as, b :: bs => a == b && listStartsWith as bs

/-- Does `needle` occur as a contiguous sublist of the haystack?
Model of Python's `needle in haystack` on strings. -/
def hasSub (needle : List Char) : List Char → Bool
  | [] => listStartsWith needle []
  | c :: cs => listStartsWith needle (c :: cs) || hasSub needle cs

/-- Python `needle in hay` for strings. -/
def strContains (hay needle : String) : Bool :=
  hasSub needle.data hay.data

/-- Python `str.lower()` (ASCII; the rate-limit markers are ASCII). -/
def strLower (s : String) : String :=
  ⟨s.data.map Char.toLower⟩

/-- Python slicing `s[:n]`. -/
def strTake (s : String) (n : ℕ) : String :=
  ⟨s.data.take n⟩

/-- Python `len(s)`. -/
def strLen (s : String) : ℕ :=
  s.data.length

/-- Python `str.strip()`: drop whitespace from both ends. -/
def strStrip (s : String) : String :=
  ⟨((s.data.dropWhile Char.isWhitespace).reverse.dropWhile Char.isWhitespace).reverse⟩

/-- Python `str.replace(a, b)` for single characters
(the source only replaces the single character `_` by a space). -/
def strReplaceChar (s : String) (a b : Char) : String :=
  ⟨s.data.map (fun c => if c = a then b else c)⟩

/-- Python `sep.join(parts)`. -/
def joinSep (sep : String) : List String → String
  | [] => ""
  | [x] => x
  | x :: y :: ys => x ++ sep ++ joinSep sep (y :: ys)

/-- Numeric value of a digit string, as Python `int` reads it. -/
def digitsToNat (ds : List Char) : ℕ :=
  ds.foldl (fun a c => a * 10 + (c.toNat - 48)) 0

/-- Strip an exact literal from the front of a character list. -/
def stripLiteral : List Char → List Char → Option (List Char)
  | [], s => some s
  | _ :: _, [] => none
  | a :: as, b :: bs => if a == b then stripLiteral as bs else none

/-- One anchored match of the regex `try again in (\d+)m(\d+)` at the head
of `s`: the literal text, then one or more digits (group 1), the letter
`m`, and one or more digits (group 2).  Digits and `m` are disjoint, so
greedy matching is exactly "take the maximal digit run". -/
def matchTryAgainAt (s : List Char) : Option (ℕ × ℕ) :=
  match stripLiteral "try again in ".data s with
  | none => none
  | some r1 =>
    let d1 := List.span Char.isDigit r1
    if d1.1.isEmpty then none
    else
      match d1.2 with
      | 'm' :: r3 =>
        let d2 := List.span Char.isDigit r3
        if d2.1.isEmpty then none
        else some (digitsToNat d1.1, digitsToNat d2.1)
      | _ => none

/-- Model of `re.search(r'try again in (\d+)m(\d+)', s)`: the leftmost
position at which the whole pattern matches, returning the two captured
numbers. -/
def searchTryAgain : List Char → Option (ℕ × ℕ)
  | [] => none
  | c :: rest =>
    match matchTryAgainAt (c :: rest) with
    | some r => some r
    | none => searchTryAgain rest

/-! ### `RateLimitHandler` -/

/-- The classification dict returned by
`RateLimitHandler.parse_rate_limit_error` (keys `type`, `is_recoverable`,
`wait_seconds`, `message`). -/
structure FailureClassification where
  type : String
  is_recoverable : Bool
  wait_seconds : Option ℚ
  message : String
deriving DecidableEq

/-- `RateLimitHandler.parse_rate_limit_error`.  Checks the lowercased
message for daily-token-limit markers, then for per-minute markers (in
that case extracting a `try again in NmM` wait from the original-case
message, defaulting to 60), and otherwise returns the recoverable
`unknown` classification with a 30 second wait.
(`group(2).split('.')[0]` in the source is the identity on the digit-only
group 2 and is dropped.) -/
def parse_rate_limit_error (error_message : String) : FailureClassification :=
  let error_lower := strLower error_message
  if strContains error_lower "tokens per day" || strContains error_lower "tpd" then
    { type := "daily_token_limit"
      is_recoverable := false
      wait_seconds := none
      message := "Daily token limit reached. Service unavailable until reset." }
  else if strContains error_lower "requests per minute" || strContains error_lower "rpm" then
    let wait : ℕ :=
      match searchTryAgain error_message.data with
      | some nm => nm.1 * 60 + nm.2
      | none => 60
    { type := "requests_per_minute"
      is_recoverable := true
      wait_seconds := some (wait : ℚ)
      message := "Rate limit: too many requests. Retrying in " ++ toString wait ++ "s." }
  else
    { type := "unknown"
      is_recoverable := true
      wait_seconds := some ((30 : ℕ) : ℚ)
      message := "Rate limit encountered. Retrying in 30s." }

/-- `RateLimitHandler.should_retry`. -/
def should_retry (error_info : FailureClassification) (attempt : ℕ)
    (max_retries : ℕ) : Bool :=
  if !error_info.is_recoverable then false
  else if max_retries ≤ attempt then false
  else true

/-- `RateLimitHandler.wait_with_backoff`: sleeps
`base_wait * 1.5 ** attempt` seconds where `base_wait` is the suggested
wait.  Returns the slept duration; `none` models the `TypeError` Python
would raise on `None * float` (never reached by the invoker, which only
calls this for recoverable classifications). -/
def wait_with_backoff (error_info : FailureClassification) (attempt : ℕ) :
    Option ℚ :=
  match error_info.wait_seconds with
  | some base_wait => some (base_wait * (1.5 : ℚ) ^ attempt)
  | none => none

/-! ### `_invoke_llm_with_retry` -/

/-- Result of one external call to `self.recommendation_chain.invoke`:
success (carrying `result['text']`), a `RateLimitError` (carrying
`str(e)`), or any other exception (carrying `str(e)`). -/
inductive CallOutcome where
  | success (text : String)
  | rateLimit (message : String)
  | failure (message : String)
deriving DecidableEq

/-- Result of `_invoke_llm_with_retry`: the returned text, or the message
of the `RuntimeError` it raises. -/
inductive InvokeResult where
  | ok (text : String)
  | error (message : String)
deriving DecidableEq

/-- The terminal message raised after exhausting retries. -/
def exhaustedRetriesMessage (max_retries : ℕ) : String :=
  "AI service temporarily unavailable after " ++ toString max_retries ++
    " retry attempts. Please try again in a few minutes."

/-- The terminal message raised for a non-recoverable rate limit,
wrapping the classification message. -/
def quotaMessageOf (info : FailureClassification) : String :=
  "AI service unavailable: " ++ info.message ++
    " Please try again later or contact support."

/-- The body of the `for attempt in range(max_retries + 1)` loop of
`_invoke_llm_with_retry`, by recursion on the remaining iteration count.
Returns the result together with the number of external calls made.
The fuel-exhausted case models the unreachable `raise` after the loop. -/
def invokeIter (outcomes : ℕ → CallOutcome) (max_retries : ℕ) :
    ℕ → ℕ → InvokeResult × ℕ
  | _, 0 => (.error "Unexpected error in LLM retry logic", 0)
  | attempt, rem + 1 =>
    match outcomes attempt with
    | .success t => (.ok t, 1)
    | .rateLimit m =>
      let error_info := parse_rate_limit_error m
      if !should_retry error_info attempt max_retries then
        if !error_info.is_recoverable then
          (.error (quotaMessageOf error_info), 1)
        else
          (.error (exhaustedRetriesMessage max_retries), 1)
      else
        let r := invokeIter outcomes max_retries (attempt + 1) rem
        (r.1, r.2 + 1)
    | .failure m => (.error ("AI service error: " ++ m), 1)

/-- `_invoke_llm_with_retry(input_data, max_retries)`.  The prompt inputs
only affect the external call itself, which is abstracted into
`outcomes`. -/
def invoke_llm_with_retry (outcomes : ℕ → CallOutcome) (max_retries : ℕ) :
    InvokeResult × ℕ :=
  invokeIter outcomes max_retries 0 (max_retries + 1)

/-! ### Data model -/

/-- A card dict as consumed by the recommendation system.  The two rate
dicts have dynamic category keys and are modelled as association lists;
`benefits` defaults to `[]` in the source (`card.get('benefits', [])`),
which the list type covers. -/
structure Card where
  card_id : String
  card_name : String
  issuer : String
  annual_fee : ℚ
  cash_back_rate : List (String × ℚ)
  points_multiplier : List (String × ℚ)
  benefits : List String
deriving DecidableEq

/-- `transaction_data` dict (keys used by `get_recommendation`). -/
structure TransactionData where
  merchant : String
  amount : ℚ
  category : String
  optimization_goal : String
deriving DecidableEq

/-- Python `d.get(key)` on an association-list dict. -/
def dictGet (d : List (String × ℚ)) (key : String) : Option ℚ :=
  match d.find? (fun kv => kv.1 == key) with
  | some kv => some kv.2
  | none => none

/-- The source's nested lookup
`card.get(rates, {}).get(key, card.get(rates, {}).get('other', 0))`:
the rate at `key`, else the rate at `"other"`, else `0`. -/
def rateLookup (rates : List (String × ℚ)) (key : String) : ℚ :=
  (dictGet rates key).getD ((dictGet rates "other").getD 0)

/-- The weight dicts of `calculate_card_value`. -/
structure Weights where
  cash : ℚ
  points : ℚ
  benefits : ℚ
deriving DecidableEq

/-- The breakdown dict returned by `calculate_card_value`. -/
structure Breakdown where
  cash_back : ℚ
  points : ℚ
  points_value : ℚ
  benefits_count : ℕ
  benefits_value : ℚ
  weights : Weights
  total_value : ℚ
deriving DecidableEq

/-- The goal-dependent weight table of `calculate_card_value`
(unknown goals fall back to balanced). -/
def goalWeights (goal : String) : Weights :=
  if goal == "cash_back" then ⟨1.0, 0.1, 0.5⟩
  else if goal == "travel_points" then ⟨0.1, 1.0, 0.5⟩
  else if goal == "specific_discounts" then ⟨0.3, 0.3, 2.5⟩
  else if goal == "balanced" then ⟨0.5, 0.5, 0.5⟩
  else ⟨0.5, 0.5, 0.5⟩

/-- `AgenticRecommendationSystem.calculate_card_value`. -/
def calculate_card_value (card : Card) (amount : ℚ) (category : String)
    (goal : String) : ℚ × Breakdown :=
  let category_key := strLower category
  let cash_back_rate := rateLookup card.cash_back_rate category_key
  let points_mult := rateLookup card.points_multiplier category_key
  let cash_back := amount * cash_back_rate
  let points := amount * points_mult
  let points_value := points * (0.015 : ℚ)
  let benefits_count := card.benefits.length
  let benefits_value := (benefits_count : ℚ) * (2.0 : ℚ)
  let weights := goalWeights goal
  let total_value :=
    weights.cash * cash_back + weights.points * points_value +
      weights.benefits * benefits_value
  (total_value,
   { cash_back := cash_back
     points := points
     points_value := points_value
     benefits_count := benefits_count
     benefits_value := benefits_value
     weights := weights
     total_value := total_value })

/-! ### Ranking -/

/-- One entry of the `card_scores` list built by `get_recommendation`. -/
structure ScoredCard where
  card : Card
  value : ℚ
  breakdown : Breakdown
deriving DecidableEq

/-- Score one card against the (already normalized) transaction data. -/
def scoreCard (td : TransactionData) (card : Card) : ScoredCard :=
  let vb := calculate_card_value card td.amount td.category td.optimization_goal
  ⟨card, vb.1, vb.2⟩

/-- Descending-by-value order on scored cards. -/
def scoredGE (a b : ScoredCard) : Prop :=
  b.value ≤ a.value

instance : DecidableRel scoredGE :=
  fun a b => inferInstanceAs (Decidable (b.value ≤ a.value))

instance : IsTotal ScoredCard scoredGE :=
  ⟨fun a b => le_total b.value a.value⟩

instance : IsTrans ScoredCard scoredGE :=
  ⟨fun _ _ _ h1 h2 => le_trans h2 h1⟩

/-- `card_scores.sort(key=lambda x: x['value'], reverse=True)`.  Python's
sort is stable; a stable sort under a fixed comparison has exactly one
possible output, so the stable insertion sort computes the same list. -/
def sortScoredDesc (l : List ScoredCard) : List ScoredCard :=
  List.insertionSort scoredGE l

/-! ### Numeric formatting (`round`, `f"{x:.2f}"`, `f"{x:.0f}"`) -/

/-- Round-half-to-even to an integer, as Python `round` does on exact
values. -/
def bankersRound (q : ℚ) : ℤ :=
  let f := ⌊q⌋
  let r := q - (f : ℚ)
  if r < 1 / 2 then f
  else if 1 / 2 < r then f + 1
  else if f % 2 = 0 then f else f + 1

/-- Python `round(x, 2)`. -/
def round2 (q : ℚ) : ℚ :=
  ((bankersRound (q * 100) : ℤ) : ℚ) / 100

/-- Two-digit zero padding for the cents part of `f"{x:.2f}"`. -/
def pad2 (n : ℕ) : String :=
  if n < 10 then "0" ++ toString n else toString n

/-- Python `f"{x:.2f}"` on an exact rational. -/
def fmt2 (q : ℚ) : String :=
  let n := bankersRound (q * 100)
  let sign := if n < 0 then "-" else ""
  let a := n.natAbs
  sign ++ toString (a / 100) ++ "." ++ pad2 (a % 100)

/-- Python `f"{x:.0f}"` on an exact rational. -/
def fmt0 (q : ℚ) : String :=
  toString (bankersRound q)

/-! ### `_build_enhanced_explanation` -/

/-- `AgenticRecommendationSystem._build_enhanced_explanation`. -/
def build_enhanced_explanation (top_cards : List ScoredCard)
    (_transaction_data : TransactionData) (ai_explanation : String) : String :=
  match top_cards with
  | [] => ai_explanation
  | best :: rest =>
    let part1 := best.card.card_name ++ " earns $" ++
      fmt2 best.breakdown.cash_back ++ " cash back"
    let comparison_parts :=
      if 0 < best.breakdown.points then
        [part1,
         fmt0 best.breakdown.points ++ " points ($" ++
           fmt2 best.breakdown.points_value ++ " value)"]
      else [part1]
    let comparisons :=
      (rest.map (fun alt =>
        (if 0 < alt.breakdown.cash_back then
          [alt.card.card_name ++ " $" ++ fmt2 alt.breakdown.cash_back ++
            " cash back"]
         else []) ++
        (if 0 < alt.breakdown.points then
          [fmt0 alt.breakdown.points ++ " points"]
         else []))).flatten
    let comparison_parts2 :=
      if comparisons.isEmpty then comparison_parts
      else comparison_parts ++ ["vs. " ++ joinSep " and " (comparisons.take 2)]
    let enhanced := joinSep " " comparison_parts2 ++ ". "
    if ai_explanation ≠ "" ∧ 20 < strLen ai_explanation then
      enhanced ++ strTake ai_explanation 300
    else enhanced

/-! ### `get_recommendation` -/

/-- A recommended-card dict of the successful response (the zero-amount
sentinel has a different key set and its own structure below). -/
structure RecommendedCard where
  card_id : String
  card_name : String
  expected_value : ℚ
  cash_back_earned : ℚ
  points_earned : ℚ
  applicable_benefits : List String
  explanation : String
  confidence_score : ℚ
deriving DecidableEq

/-- The dict returned by a successful `get_recommendation`. -/
structure RecommendationResponse where
  recommended_card : RecommendedCard
  alternative_cards : List RecommendedCard
  optimization_summary : String
  total_savings : ℚ
deriving DecidableEq

/-- The inner `recommended_card` dict of the zero-amount sentinel. -/
structure ZeroAmountCard where
  card_name : String
  explanation : String
  expected_value : ℚ
  cash_back_earned : ℚ
  points_earned : ℚ
deriving DecidableEq

/-- The zero-amount sentinel of `get_recommendation`. -/
def zeroAmountSentinel : ZeroAmountCard :=
  { card_name := "Any card"
    explanation := "No rewards earned on $0 transactions. Any card works."
    expected_value := 0
    cash_back_earned := 0
    points_earned := 0 }

/-- All the ways `get_recommendation` can come back to its caller:
an early error dict (carrying the `error` and `message` values), the
zero-amount sentinel dict, a raised `RuntimeError` or `IndexError`
(carrying its message), or the full recommendation response. -/
inductive RecOutcome where
  | errorResult (error message : String)
  | zeroAmount (card : ZeroAmountCard) (optimization_summary : String)
  | raised (message : String)
  | ok (response : RecommendationResponse)
deriving DecidableEq

/-- The `CategoryEnum` values, in declaration order. -/
def validCategories : List String :=
  ["dining", "travel", "groceries", "gas", "entertainment", "shopping", "other"]

/-- The category-normalization step of `get_recommendation`: if the
lowercased category is not a valid enum value, the `category` entry of
the caller's dict is overwritten with `"other"`; otherwise the dict is
untouched. -/
def normalizeCategory (transaction_data : TransactionData) : TransactionData :=
  let category := strLower transaction_data.category
  if validCategories.contains category then transaction_data
  else { transaction_data with category := "other" }

/-- `AgenticRecommendationSystem._build_alternatives_from_scores`. -/
def build_alternatives_from_scores (card_scores : List ScoredCard) :
    List RecommendedCard :=
  card_scores.map (fun item =>
    { card_id := item.card.card_id
      card_name := item.card.card_name
      expected_value := round2 item.value
      cash_back_earned := round2 item.breakdown.cash_back
      points_earned := round2 item.breakdown.points
      applicable_benefits := item.card.benefits.take 2
      explanation := "Alternative earning $" ++ fmt2 item.value ++ " total value"
      confidence_score := (0.85 : ℚ) })

/-- The final response dict `get_recommendation` builds on the success
path, from the sorted scores (`best :: rest`), the normalized transaction
data, and `result['text']`. -/
def mkResponse (best : ScoredCard) (rest : List ScoredCard)
    (td : TransactionData) (response_text : String) : RecommendationResponse :=
  let ai_explanation := strStrip response_text
  let enhanced :=
    build_enhanced_explanation ((best :: rest).take 3) td ai_explanation
  { recommended_card :=
      { card_id := best.card.card_id
        card_name := best.card.card_name
        expected_value := round2 best.value
        cash_back_earned := round2 best.breakdown.cash_back
        points_earned := round2 best.breakdown.points
        applicable_benefits := best.card.benefits.take 2
        explanation := enhanced
        confidence_score := (0.95 : ℚ) }
    alternative_cards := build_alternatives_from_scores (rest.take 2)
    optimization_summary :=
      "Best choice for " ++ strReplaceChar td.optimization_goal '_' ' ' ++
        ": " ++ best.card.card_name ++ " ($" ++ fmt2 best.value ++ " value)"
    total_savings := round2 best.value }

/-- `AgenticRecommendationSystem.get_recommendation`.

`llm_available` models `self.llm` being configured; `outcomes` models the
external reasoning service (consumed through `_invoke_llm_with_retry`
with its default `max_retries = 3`).  The returned triple is the result,
the final state of the caller-supplied `transaction_data` dict (which the
category-normalization step mutates in place), and the number of external
reasoning calls made.  Logging and metrics calls have no effect on any of
these and are dropped.  The `[]` case of the final match is unreachable
(`user_cards` was checked non-empty and sorting preserves length); it
models the `IndexError` Python would raise on `card_scores[0]`. -/
def get_recommendation (llm_available : Bool) (outcomes : ℕ → CallOutcome)
    (transaction_data : TransactionData) (user_cards : List Card) :
    RecOutcome × TransactionData × ℕ :=
  if user_cards.isEmpty then
    (.errorResult "No cards available"
      "Please add at least one credit card to get recommendations.",
     transaction_data, 0)
  else if transaction_data.amount < 0 then
    (.errorResult "Invalid amount" "Transaction amount cannot be negative.",
     transaction_data, 0)
  else if transaction_data.amount = 0 then
    (.zeroAmount zeroAmountSentinel "No rewards for $0 transaction",
     transaction_data, 0)
  else
    let td := normalizeCategory transaction_data
    let card_scores := sortScoredDesc (user_cards.map (scoreCard td))
    if !llm_available then
      (.raised ("AI service unavailable. Please ensure GROQ_API_KEY is " ++
        "configured and the service is operational."), td, 0)
    else
      match invoke_llm_with_retry outcomes 3 with
      | (.error msg, n) => (.raised msg, td, n)
      | (.ok text, n) =>
        match card_scores with
        | [] => (.raised "IndexError: list index out of range", td, n)
        | best :: rest => (.ok (mkResponse best rest td text), td, n)

/-! ### Reference definitions taken from the specification text

These two definitions are written from the specification wording (not
from the source); the refinement claims compare them with the embedded
source functions above. -/

/-- The §4.1 reference lookup: the rate at the context category, else the
rate stored under the sentinel key `"other"`, else `0`. -/
def specRate (rates : List (String × ℚ)) (category : String) : ℚ :=
  match dictGet rates category with
  | some r => r
  | none =>
    match dictGet rates "other" with
    | some r => r
    | none => 0

/-- The §4.1 weight-vector table: `(1.0, 0.1, 0.5)` for `cash_back`
(value-focused), `(0.1, 1.0, 0.5)` for `travel_points` (points-focused),
`(0.3, 0.3, 2.5)` for `specific_discounts` (benefit-focused), and
`(0.5, 0.5, 0.5)` for `balanced` and every unrecognized goal. -/
def specWeights (goal : String) : Weights :=
  if goal == "cash_back" then ⟨1.0, 0.1, 0.5⟩
  else if goal == "travel_points" then ⟨0.1, 1.0, 0.5⟩
  else if goal == "specific_discounts" then ⟨0.3, 0.3, 2.5⟩
  else ⟨0.5, 0.5, 0.5⟩

/-- The §4.1 reference score breakdown: rates looked up at the lowercased
category with `"other"`/0 fallback, `cashBack = amount * cashRate`,
`points = amount * pointsMultiplier`,
`pointsValue = points * POINT_DOLLAR_VALUE` with the fixed constant
0.015, `benefitsValue = benefitCount * BENEFIT_UNIT_VALUE` with the
fixed constant 2.0, and
`total = w.cash*cashBack + w.points*pointsValue + w.benefits*benefitsValue`. -/
def specScoreBreakdown (card : Card) (amount : ℚ) (category : String)
    (goal : String) : ℚ × Breakdown :=
  let cashRate := specRate card.cash_back_rate (strLower category)
  let pointsMultiplier := specRate card.points_multiplier (strLower category)
  let cashBack := amount * cashRate
  let points := amount * pointsMultiplier
  let pointsValue := points * (0.015 : ℚ)
  let benefitCount := card.benefits.length
  let benefitsValue := (benefitCount : ℚ) * (2.0 : ℚ)
  let w := specWeights goal
  let total := w.cash * cashBack + w.points * pointsValue + w.benefits * benefitsValue
  (total,
   { cash_back := cashBack
     points := points
     points_value := pointsValue
     benefits_count := benefitCount
     benefits_value := benefitsValue
     weights := w
     total_value := total })

/-- The §4.4 reference composition: a deterministic lead sentence from the
top-ranked breakdown (the card name with its cash-back figure, plus the
points clause exactly when points are positive), a comparison clause
naming up to two runner-up cash/points figures when there are any, and
the AI text truncated to 300 characters appended exactly when its length
exceeds 20 (so an empty AI text leaves the deterministic portion alone). -/
def specCompose (ranked : List ScoredCard) (aiText : String) : String :=
  match ranked with
  | [] => aiText
  | best :: runnerUps =>
    let lead := best.card.card_name ++ " earns $" ++
      fmt2 best.breakdown.cash_back ++ " cash back"
    let leadParts :=
      if 0 < best.breakdown.points then
        [lead,
         fmt0 best.breakdown.points ++ " points ($" ++
           fmt2 best.breakdown.points_value ++ " value)"]
      else [lead]
    let figures :=
      (runnerUps.map (fun alt =>
        (if 0 < alt.breakdown.cash_back then
          [alt.card.card_name ++ " $" ++ fmt2 alt.breakdown.cash_back ++
            " cash back"]
         else []) ++
        (if 0 < alt.breakdown.points then
          [fmt0 alt.breakdown.points ++ " points"]
         else []))).flatten
    let withComparison :=
      if figures.isEmpty then leadParts
      else leadParts ++ ["vs. " ++ joinSep " and " (figures.take 2)]
    let deterministic := joinSep " " withComparison ++ ". "
    if 20 < strLen aiText then deterministic ++ strTake aiText 300
    else deterministic

/-! ### Concrete fixtures used by witnesses and counterexamples -/

/-- A concrete card used by witnesses. -/
def wCard : Card :=
  { card_id := "card-1"
    card_name := "Alpha"
    issuer := "Chase"
    annual_fee := 0
    cash_back_rate := [("dining", 0.03), ("other", 0.01)]
    points_multiplier := [("other", 1)]
    benefits := ["lounge"] }

/-- A second concrete card used by witnesses. -/
def wCard2 : Card :=
  { card_id := "card-2"
    card_name := "Beta"
    issuer := "Citi"
    annual_fee := 0
    cash_back_rate := [("dining", 0.02)]
    points_multiplier := []
    benefits := [] }

/-- A concrete transaction with a positive amount. -/
def wTd : TransactionData :=
  { merchant := "Cafe"
    amount := 100
    category := "dining"
    optimization_goal := "cash_back" }

/-- A concrete zero-amount transaction. -/
def wTdZero : TransactionData :=
  { merchant := "Cafe"
    amount := 0
    category := "dining"
    optimization_goal := "balanced" }

/-- A concrete transaction whose category is not a valid enum value. -/
def wTdBadCat : TransactionData :=
  { merchant := "Cafe"
    amount := 100
    category := "plumbing"
    optimization_goal := "balanced" }

/-- An external service that always succeeds with a short text. -/
def wOutcomesA : ℕ → CallOutcome := fun _ => .success "text one"

/-- Another always-succeeding service returning a different short text. -/
def wOutcomesB : ℕ → CallOutcome := fun _ => .success "text two"

/-- A service that always fails with a non-rate-limit error. -/
def wOutcomesFail : ℕ → CallOutcome := fun _ => .failure "boom"

/-! ## Theorems -/

/-! ### Helper lemmas -/

/-- The source's nested `get`-with-default lookup coincides with the
specification's cascading lookup. -/
theorem rateLookup_eq_specRate (rates : List (String × ℚ)) (key : String) :
    rateLookup rates key = specRate rates key := by
  unfold rateLookup specRate
  cases dictGet rates key <;> cases dictGet rates "other" <;> rfl

/-- The goal weight table of the source coincides with the
specification's table (the source tests `balanced` explicitly before
falling back to the same balanced weights). -/
theorem goalWeights_eq_specWeights (goal : String) :
    goalWeights goal = specWeights goal := by
  unfold goalWeights specWeights
  split_ifs <;> rfl

/-! ### C1: the scoring computation matches the §4.1 reference -/

/-- C1: for every card, positive amount, category, and goal, the value
and breakdown produced by `calculate_card_value` equal the §4.1 reference
definition: rates looked up at the lowercased category with
`"other"`-then-`0` fallback (same lookup for the points multiplier),
`cashBack = amount * cashRate`, `points = amount * pointsMultiplier`,
`pointsValue = points * 0.015`, `benefitsValue = benefitCount * 2.0`,
the weight vectors `(1.0, 0.1, 0.5)` / `(0.1, 1.0, 0.5)` /
`(0.3, 0.3, 2.5)` / `(0.5, 0.5, 0.5)` for `cash_back`, `travel_points`,
`specific_discounts`, and `balanced` or any unrecognized goal, and
`total = w.cash*cashBack + w.points*pointsValue + w.benefits*benefitsValue`. -/
theorem calculate_card_value_matches_spec (card : Card) (amount : ℚ)
    (category goal : String) (h : 0 < amount) :
    calculate_card_value card amount category goal =
      specScoreBreakdown card amount category goal := by
  simp only [calculate_card_value, specScoreBreakdown, rateLookup_eq_specRate,
    goalWeights_eq_specWeights]

/-- Witness for C1 at a concrete card and transaction. -/
theorem calculate_card_value_matches_spec_witness :
    (0 : ℚ) < 100 ∧
    calculate_card_value wCard 100 "dining" "cash_back" =
      specScoreBreakdown wCard 100 "dining" "cash_back" :=
  ⟨by decide, calculate_card_value_matches_spec wCard 100 "dining" "cash_back" (by decide)⟩

/-! ### C9: backoff growth -/

/-- C9: for every classification carrying a suggested wait `w` and every
attempt number `a`, the backoff sleep duration equals `w * 1.5 ^ a`, so
the durations at attempts 0, 1, 2 are `w`, `1.5 * w`, and `2.25 * w`. -/
theorem wait_with_backoff_growth (error_info : FailureClassification)
    (w : ℚ) (attempt : ℕ) (h : error_info.wait_seconds = some w) :
    wait_with_backoff error_info attempt = some (w * (1.5 : ℚ) ^ attempt) ∧
    wait_with_backoff error_info 0 = some w ∧
    wait_with_backoff error_info 1 = some (1.5 * w) ∧
    wait_with_backoff error_info 2 = some (2.25 * w) := by
  have hb : ∀ a : ℕ, wait_with_backoff error_info a = some (w * (1.5 : ℚ) ^ a) := by
    intro a
    unfold wait_with_backoff
    rw [h]
  refine ⟨hb attempt, ?_, ?_, ?_⟩
  · rw [hb 0, pow_zero, mul_one]
  · rw [hb 1, pow_one, mul_comm]
  · rw [hb 2]
    congr 1
    ring_nf

/-- Witness for C9: the per-minute classification of a concrete error
text suggests a 60 second wait, and the third backoff sleeps `2.25 * 60`
seconds. -/
theorem wait_with_backoff_growth_witness :
    (parse_rate_limit_error "requests per minute").wait_seconds =
      some ((60 : ℕ) : ℚ) ∧
    wait_with_backoff (parse_rate_limit_error "requests per minute") 2 =
      some (2.25 * ((60 : ℕ) : ℚ)) :=
  ⟨rfl, (wait_with_backoff_growth (parse_rate_limit_error "requests per minute")
    ((60 : ℕ) : ℚ) 2 rfl).2.2.2⟩

/-! ### C3: the failure classifier -/

/-- C3 counterexample: the input `"tpd"` contains neither
`"tokens per day"` nor `"requests per minute"`, so by the claim it should
classify as kind `unknown`, recoverable, wait 30; the code instead
classifies it as the non-recoverable daily token limit with no wait. -/
theorem parse_rate_limit_error_tpd_counterexample :
    strContains (strLower "tpd") "tokens per day" = false ∧
    strContains (strLower "tpd") "requests per minute" = false ∧
    parse_rate_limit_error "tpd" =
      { type := "daily_token_limit"
        is_recoverable := false
        wait_seconds := none
        message := "Daily token limit reached. Service unavailable until reset." } ∧
    (parse_rate_limit_error "tpd").type ≠ "unknown" ∧
    (parse_rate_limit_error "tpd").is_recoverable ≠ true ∧
    (parse_rate_limit_error "tpd").wait_seconds ≠ some ((30 : ℕ) : ℚ) := by
  exact ⟨rfl, rfl, rfl, by decide, by decide, by decide⟩

/-- C3 (amended): `parse_rate_limit_error` is a total function (it cannot
throw), applying its rules in order with first match winning on the
lowercased text: a `"tokens per day"` or `"tpd"` marker classifies as the
non-recoverable `daily_token_limit` with wait `None`; otherwise a
`"requests per minute"` or `"rpm"` marker classifies as recoverable
`requests_per_minute` with wait `N*60 + M` when a `try again in NmM`
pattern is embedded in the original text and 60 otherwise; any other
text classifies as recoverable `unknown` with wait 30. -/
theorem parse_rate_limit_error_characterization (s : String) :
    ((strContains (strLower s) "tokens per day" ||
        strContains (strLower s) "tpd") = true →
      parse_rate_limit_error s =
        { type := "daily_token_limit"
          is_recoverable := false
          wait_seconds := none
          message := "Daily token limit reached. Service unavailable until reset." }) ∧
    ((strContains (strLower s) "tokens per day" ||
        strContains (strLower s) "tpd") = false →
     (strContains (strLower s) "requests per minute" ||
        strContains (strLower s) "rpm") = true →
      (parse_rate_limit_error s).type = "requests_per_minute" ∧
      (parse_rate_limit_error s).is_recoverable = true ∧
      (∀ n m : ℕ, searchTryAgain s.data = some (n, m) →
        (parse_rate_limit_error s).wait_seconds = some ((n * 60 + m : ℕ) : ℚ)) ∧
      (searchTryAgain s.data = none →
        (parse_rate_limit_error s).wait_seconds = some ((60 : ℕ) : ℚ))) ∧
    ((strContains (strLower s) "tokens per day" ||
        strContains (strLower s) "tpd") = false →
     (strContains (strLower s) "requests per minute" ||
        strContains (strLower s) "rpm") = false →
      parse_rate_limit_error s =
        { type := "unknown"
          is_recoverable := true
          wait_seconds := some ((30 : ℕ) : ℚ)
          message := "Rate limit encountered. Retrying in 30s." }) := by
  refine ⟨fun h1 => ?_, fun h1 h2 => ?_, fun h1 h2 => ?_⟩
  · simp only [parse_rate_limit_error, h1, if_true]
  · refine ⟨?_, ?_, fun n m hnm => ?_, fun hnone => ?_⟩
    · simp only [parse_rate_limit_error, h1, h2, Bool.false_eq_true, if_false, if_true]
    · simp only [parse_rate_limit_error, h1, h2, Bool.false_eq_true, if_false, if_true]
    · simp only [parse_rate_limit_error, h1, h2, hnm, Bool.false_eq_true, if_false,
        if_true]
    · simp only [parse_rate_limit_error, h1, h2, hnone, Bool.false_eq_true, if_false,
        if_true]
  · simp only [parse_rate_limit_error, h1, h2, Bool.false_eq_true, if_false]

/-- Witness for C3 (amended) on the contract's own per-minute example,
checking the parsed `1m15s` wait of `1*60 + 15` seconds. -/
theorem parse_rate_limit_error_characterization_witness :
    searchTryAgain
      ("Rate limit reached for requests per minute (RPM), try again in 1m15s" :
        String).data = some (1, 15) ∧
    (parse_rate_limit_error
      "Rate limit reached for requests per minute (RPM), try again in 1m15s").wait_seconds =
      some ((1 * 60 + 15 : ℕ) : ℚ) :=
  ⟨by decide,
   ((parse_rate_limit_error_characterization
      "Rate limit reached for requests per minute (RPM), try again in 1m15s").2.1
      (by decide) (by decide)).2.2.1 1 15 (by decide)⟩

/-! ### C2: the retry policy of the invoker -/

/-- A substring of a list is a substring of any extension on the left. -/
theorem hasSub_append (n pre post : List Char) (h : hasSub n post = true) :
    hasSub n (pre ++ post) = true := by
  induction pre with
  | nil => simpa using h
  | cons c cs ih => simp [hasSub, ih]

/-- The only non-recoverable classification the parser produces is the
daily token limit. -/
theorem parse_not_recoverable_eq (s : String)
    (h : (parse_rate_limit_error s).is_recoverable = false) :
    parse_rate_limit_error s =
      { type := "daily_token_limit"
        is_recoverable := false
        wait_seconds := none
        message := "Daily token limit reached. Service unavailable until reset." } := by
  revert h
  simp only [parse_rate_limit_error]
  split_ifs <;> simp

/-- The retry loop makes at most as many external calls as it has
iterations left. -/
theorem invokeIter_calls_le (outcomes : ℕ → CallOutcome) (m : ℕ) :
    ∀ rem attempt, (invokeIter outcomes m attempt rem).2 ≤ rem := by
  intro rem
  induction rem with
  | zero => intro attempt; simp [invokeIter]
  | succ r ih =>
    intro attempt
    unfold invokeIter
    cases outcomes attempt with
    | success t => simp
    | failure msg => simp
    | rateLimit msg =>
      simp only []
      split_ifs <;> simp [Nat.succ_le_succ (ih (attempt + 1))]

/-- When every attempt hits a recoverable rate limit, the loop runs all
its iterations and ends with the exhausted-retries error. -/
theorem invokeIter_exhaust (outcomes : ℕ → CallOutcome) (m : ℕ)
    (hall : ∀ a, a ≤ m → ∃ msg, outcomes a = CallOutcome.rateLimit msg ∧
      (parse_rate_limit_error msg).is_recoverable = true) :
    ∀ rem attempt, attempt + rem = m →
      invokeIter outcomes m attempt (rem + 1) =
        (.error (exhaustedRetriesMessage m), rem + 1) := by
  intro rem
  induction rem with
  | zero =>
    intro attempt h
    have ha : attempt = m := by omega
    subst ha
    obtain ⟨msg, hmsg, hrec⟩ := hall attempt le_rfl
    unfold invokeIter
    rw [hmsg]
    simp [should_retry, hrec]
  | succ r ih =>
    intro attempt h
    have ha : attempt ≤ m := by omega
    obtain ⟨msg, hmsg, hrec⟩ := hall attempt ha
    unfold invokeIter
    rw [hmsg]
    have hretry : should_retry (parse_rate_limit_error msg) attempt m = true := by
      simp [should_retry, hrec]
      omega
    rw [ih (attempt + 1) (by omega)]
    simp [hretry]

/-- The exhausted-retries message contains the phrase
`"retry attempts"` for every retry bound. -/
theorem exhausted_message_contains_retry (m : ℕ) :
    strContains (exhaustedRetriesMessage m) "retry attempts" = true := by
  unfold strContains exhaustedRetriesMessage
  rw [String.data_append, String.data_append, List.append_assoc]
  refine hasSub_append _ _ _ (hasSub_append _ _ _ ?_)
  decide

/-- C2: for every stream of outcomes and retry bound `m`: a first-call
failure that is not a rate limit propagates after exactly one external
call; a first-call rate limit classified non-recoverable terminates after
exactly one external call with the quota message (which names the daily
token limit); the external service is called at most `m + 1` times in
total; when every attempt hits a recoverable rate limit the loop stops
after `m + 1` calls with the exhausted-retries message; and that message
names `"retry attempts"` and is distinct from every non-recoverable
quota message. -/
theorem invoke_llm_with_retry_policy (outcomes : ℕ → CallOutcome) (m : ℕ) :
    (∀ msg, outcomes 0 = CallOutcome.failure msg →
      invoke_llm_with_retry outcomes m =
        (InvokeResult.error ("AI service error: " ++ msg), 1)) ∧
    (∀ msg, outcomes 0 = CallOutcome.rateLimit msg →
      (parse_rate_limit_error msg).is_recoverable = false →
      invoke_llm_with_retry outcomes m =
        (InvokeResult.error (quotaMessageOf (parse_rate_limit_error msg)), 1) ∧
      strContains (quotaMessageOf (parse_rate_limit_error msg))
        "Daily token limit" = true) ∧
    (invoke_llm_with_retry outcomes m).2 ≤ m + 1 ∧
    ((∀ a, a ≤ m → ∃ msg, outcomes a = CallOutcome.rateLimit msg ∧
        (parse_rate_limit_error msg).is_recoverable = true) →
      invoke_llm_with_retry outcomes m =
        (InvokeResult.error (exhaustedRetriesMessage m), m + 1)) ∧
    strContains (exhaustedRetriesMessage m) "retry attempts" = true ∧
    (∀ msg, (parse_rate_limit_error msg).is_recoverable = false →
      exhaustedRetriesMessage m ≠ quotaMessageOf (parse_rate_limit_error msg)) := by
  refine ⟨fun msg h => ?_, fun msg h hrec => ?_, ?_, fun hall => ?_,
    exhausted_message_contains_retry m, fun msg hrec heq => ?_⟩
  · unfold invoke_llm_with_retry invokeIter
    rw [h]
  · unfold invoke_llm_with_retry invokeIter
    rw [h]
    constructor
    · simp [should_retry, hrec]
    · rw [parse_not_recoverable_eq msg hrec]
      decide
  · exact invokeIter_calls_le outcomes m (m + 1) 0
  · exact invokeIter_exhaust outcomes m hall m 0 (by omega)
  · have hc := exhausted_message_contains_retry m
    rw [heq, parse_not_recoverable_eq msg hrec] at hc
    exact absurd hc (by decide)

/-- Witness for C2: a concrete non-rate-limit failure terminates after
one external call with the service-error message. -/
theorem invoke_llm_with_retry_policy_witness :
    wOutcomesFail 0 = CallOutcome.failure "boom" ∧
    invoke_llm_with_retry wOutcomesFail 3 =
      (InvokeResult.error ("AI service error: " ++ "boom"), 1) :=
  ⟨rfl, (invoke_llm_with_retry_policy wOutcomesFail 3).1 "boom" rfl⟩

/-! ### C6: the ranking is a stable descending sort -/

/-- Inserting into the descending order commutes with filtering by an
exact value: the insertion point of `x` is after every strictly greater
element and before every element `≤ x.value`, so elements of any one
value keep their relative order. -/
theorem filter_orderedInsert (x : ScoredCard) (s : List ScoredCard) (v : ℚ) :
    (List.orderedInsert scoredGE x s).filter (fun y => y.value == v) =
      ((x :: s).filter (fun y => y.value == v)) := by
  induction s with
  | nil => rfl
  | cons y ys ih =>
    by_cases h : scoredGE x y
    · rw [List.orderedInsert, if_pos h]
    · rw [List.orderedInsert, if_neg h]
      have hlt : x.value < y.value := not_le.mp h
      by_cases hx : x.value = v
      · have hy : (y.value == v) = false := by
          simp only [beq_eq_false_iff_ne, ne_eq]
          intro he
          rw [hx, ← he] at hlt
          exact absurd hlt (lt_irrefl y.value)
        simp only [List.filter_cons, hy, if_neg, ih, beq_iff_eq, hx, if_pos,
          Bool.false_eq_true, ↓reduceIte, decide_eq_true_eq]
      · have hx2 : (x.value == v) = false := by simpa using hx
        simp only [List.filter_cons, hx2, Bool.false_eq_true, ↓reduceIte, ih]

/-- Sorting commutes with filtering by an exact value: the stable sort
preserves the relative order of equal-valued entries. -/
theorem filter_sortScoredDesc (l : List ScoredCard) (v : ℚ) :
    (sortScoredDesc l).filter (fun y => y.value == v) =
      l.filter (fun y => y.value == v) := by
  induction l with
  | nil => rfl
  | cons x xs ih =>
    unfold sortScoredDesc at *
    rw [List.insertionSort, filter_orderedInsert, List.filter_cons,
      List.filter_cons, ih]

/-- C6: for every non-empty instrument list, the ranked list is sorted in
descending order of total value (`scoredGE` relates each entry to every
later one), it is a permutation of the scored input, and any two entries
with equal total value appear in the same relative order as in the input
(filtering by any fixed value yields the same list before and after
sorting). -/
theorem ranking_sorted_and_stable (td : TransactionData) (cards : List Card)
    (h : cards ≠ []) :
    List.Sorted scoredGE (sortScoredDesc (cards.map (scoreCard td))) ∧
    List.Perm (sortScoredDesc (cards.map (scoreCard td)))
      (cards.map (scoreCard td)) ∧
    ∀ v : ℚ,
      (sortScoredDesc (cards.map (scoreCard td))).filter
        (fun y => y.value == v) =
      (cards.map (scoreCard td)).filter (fun y => y.value == v) :=
  ⟨List.sorted_insertionSort scoredGE (cards.map (scoreCard td)),
   List.perm_insertionSort scoredGE (cards.map (scoreCard td)),
   fun v => filter_sortScoredDesc (cards.map (scoreCard td)) v⟩

/-- Witness for C6 on a concrete two-card list. -/
theorem ranking_sorted_and_stable_witness :
    ([wCard, wCard2] : List Card) ≠ [] ∧
    List.Sorted scoredGE (sortScoredDesc ([wCard, wCard2].map (scoreCard wTd))) :=
  ⟨List.cons_ne_nil _ _,
   (ranking_sorted_and_stable wTd [wCard, wCard2] (List.cons_ne_nil _ _)).1⟩

/-! ### C4: the zero-amount sentinel -/

/-- C4 counterexample: with amount 0 and an empty instrument list,
`get_recommendation` returns the no-cards error dict (the empty-list
check runs before the zero-amount check), not the zero-amount
sentinel — so the sentinel is not returned regardless of instrument list
contents. -/
theorem zero_amount_empty_cards_counterexample :
    get_recommendation true wOutcomesA wTdZero [] =
      (RecOutcome.errorResult "No cards available"
        "Please add at least one credit card to get recommendations.",
       wTdZero, 0) ∧
    (get_recommendation true wOutcomesA wTdZero []).1 ≠
      RecOutcome.zeroAmount zeroAmountSentinel "No rewards for $0 transaction" :=
  ⟨rfl, by decide⟩

/-- C4 (amended): whenever the transaction amount is 0 and the instrument
list is non-empty, `get_recommendation` returns the zero-amount sentinel
with all monetary fields equal to 0, regardless of the instrument list
contents and the optimization objective, and the reasoning service is
never invoked on that path (the call count is 0). -/
theorem zero_amount_sentinel_result (llm : Bool) (outcomes : ℕ → CallOutcome)
    (td : TransactionData) (cards : List Card) (h1 : cards ≠ [])
    (h2 : td.amount = 0) :
    get_recommendation llm outcomes td cards =
      (RecOutcome.zeroAmount zeroAmountSentinel "No rewards for $0 transaction",
       td, 0) ∧
    zeroAmountSentinel.expected_value = 0 ∧
    zeroAmountSentinel.cash_back_earned = 0 ∧
    zeroAmountSentinel.points_earned = 0 := by
  obtain ⟨c, cs, rfl⟩ : ∃ c cs, cards = c :: cs := by
    cases cards with
    | nil => exact absurd rfl h1
    | cons c cs => exact ⟨c, cs, rfl⟩
  refine ⟨?_, rfl, rfl, rfl⟩
  simp [get_recommendation, h2]

/-- Witness for C4 (amended) on a concrete card list. -/
theorem zero_amount_sentinel_result_witness :
    ([wCard] : List Card) ≠ [] ∧ wTdZero.amount = 0 ∧
    get_recommendation true wOutcomesA wTdZero [wCard] =
      (RecOutcome.zeroAmount zeroAmountSentinel "No rewards for $0 transaction",
       wTdZero, 0) :=
  ⟨List.cons_ne_nil _ _, rfl,
   (zero_amount_sentinel_result true wOutcomesA wTdZero [wCard]
     (List.cons_ne_nil _ _) rfl).1⟩

/-! ### C10: in-place mutation of the transaction dict -/

/-- C10: on every run that reaches the scoring step (non-empty card list,
positive amount), the caller-supplied `transaction_data` dict comes back
with its `category` entry overwritten by `"other"` when the lowercased
supplied category is not a valid category value, and unchanged when it
is. -/
theorem get_recommendation_mutates_category (llm : Bool)
    (outcomes : ℕ → CallOutcome) (td : TransactionData) (cards : List Card)
    (h1 : cards ≠ []) (h2 : 0 < td.amount) :
    (get_recommendation llm outcomes td cards).2.1 =
      (if validCategories.contains (strLower td.category) then td
       else { td with category := "other" }) := by
  obtain ⟨c, cs, rfl⟩ : ∃ c cs, cards = c :: cs := by
    cases cards with
    | nil => exact absurd rfl h1
    | cons c cs => exact ⟨c, cs, rfl⟩
  have hneg : ¬(td.amount < 0) := not_lt.mpr h2.le
  have hz : ¬(td.amount = 0) := ne_of_gt h2
  simp only [get_recommendation, List.isEmpty_cons, Bool.false_eq_true, if_false,
    if_neg hneg, if_neg hz]
  split
  · rfl
  · split
    · rfl
    · split
      · rfl
      · rfl

/-- Witness for C10 at a concrete invalid category. -/
theorem get_recommendation_mutates_category_witness :
    ([wCard] : List Card) ≠ [] ∧ (0 : ℚ) < wTdBadCat.amount ∧
    (get_recommendation true wOutcomesA wTdBadCat [wCard]).2.1 =
      (if validCategories.contains (strLower wTdBadCat.category) then wTdBadCat
       else { wTdBadCat with category := "other" }) :=
  ⟨List.cons_ne_nil _ _, by decide,
   get_recommendation_mutates_category true wOutcomesA wTdBadCat [wCard]
     (List.cons_ne_nil _ _) (by decide)⟩

/-! ### C5: the AI text never changes the ranking -/

/-- Every successful run of `get_recommendation` returns the response
built by `mkResponse` from the head of the ranked scores and the text the
reasoning service returned, together with the normalized transaction
data. -/
theorem get_recommendation_ok_shape (llm : Bool) (outcomes : ℕ → CallOutcome)
    (td : TransactionData) (cards : List Card)
    (resp : RecommendationResponse) (td2 : TransactionData) (n : ℕ)
    (h : get_recommendation llm outcomes td cards = (.ok resp, td2, n)) :
    ∃ best rest text,
      sortScoredDesc (cards.map (scoreCard (normalizeCategory td))) =
        best :: rest ∧
      invoke_llm_with_retry outcomes 3 = (.ok text, n) ∧
      td2 = normalizeCategory td ∧
      resp = mkResponse best rest (normalizeCategory td) text := by
  rcases hinv : invoke_llm_with_retry outcomes 3 with ⟨r3, n3⟩
  by_cases he : cards.isEmpty = true
  · simp [get_recommendation, he] at h
  by_cases ha : td.amount < 0
  · simp [get_recommendation, he, ha] at h
  by_cases hz : td.amount = 0
  · simp [get_recommendation, he, ha, hz] at h
  cases llm with
  | false => simp [get_recommendation, he, ha, hz] at h
  | true =>
    cases r3 with
    | error msg => simp [get_recommendation, he, ha, hz, hinv] at h
    | ok text =>
      rcases hscores :
          sortScoredDesc (cards.map (scoreCard (normalizeCategory td)))
        with _ | ⟨best, rest⟩
      · simp [get_recommendation, he, ha, hz, hinv, hscores] at h
      · have hred : get_recommendation true outcomes td cards =
            (.ok (mkResponse best rest (normalizeCategory td) text),
             normalizeCategory td, n3) := by
          simp [get_recommendation, he, ha, hz, hinv, hscores]
        rw [hred] at h
        have hcomp := h
        simp only [Prod.mk.injEq, RecOutcome.ok.injEq] at hcomp
        obtain ⟨hresp, htd, hn⟩ := hcomp
        exact ⟨best, rest, text, rfl, by rw [hn], htd.symm, hresp.symm⟩

/-- C5: two successful runs over the same instruments and context, in
which the reasoning service returns (possibly different) raw texts, agree
on the recommended card identity, expected value, cash back, points, and
alternatives; and the top pick is the scoring engine's top-ranked card. -/
theorem ai_text_does_not_change_ranking (llm : Bool)
    (o1 o2 : ℕ → CallOutcome) (td : TransactionData) (cards : List Card)
    (r1 r2 : RecommendationResponse) (td1 td2 : TransactionData) (n1 n2 : ℕ)
    (best : ScoredCard)
    (h1 : get_recommendation llm o1 td cards = (.ok r1, td1, n1))
    (h2 : get_recommendation llm o2 td cards = (.ok r2, td2, n2))
    (hb : (sortScoredDesc (cards.map (scoreCard (normalizeCategory td)))).head? =
      some best) :
    r1.recommended_card.card_id = r2.recommended_card.card_id ∧
    r1.recommended_card.card_name = r2.recommended_card.card_name ∧
    r1.recommended_card.expected_value = r2.recommended_card.expected_value ∧
    r1.recommended_card.cash_back_earned = r2.recommended_card.cash_back_earned ∧
    r1.recommended_card.points_earned = r2.recommended_card.points_earned ∧
    r1.alternative_cards = r2.alternative_cards ∧
    r1.recommended_card.card_id = best.card.card_id ∧
    r1.recommended_card.card_name = best.card.card_name := by
  obtain ⟨b1, rest1, t1, hs1, _, _, hr1⟩ :=
    get_recommendation_ok_shape llm o1 td cards r1 td1 n1 h1
  obtain ⟨b2, rest2, t2, hs2, _, _, hr2⟩ :=
    get_recommendation_ok_shape llm o2 td cards r2 td2 n2 h2
  rw [hs1] at hs2 hb
  injection hs2 with hbb hrr
  simp only [List.head?_cons, Option.some_inj] at hb
  subst hbb hrr hb hr1 hr2
  exact ⟨rfl, rfl, rfl, rfl, rfl, rfl, rfl, rfl⟩

/-- Witness for C5: two concrete runs whose reasoning service returns
different texts produce responses with the same recommended card id. -/
theorem ai_text_does_not_change_ranking_witness :
    get_recommendation true wOutcomesA wTd [wCard] =
      (RecOutcome.ok (mkResponse (scoreCard wTd wCard) [] wTd "text one"),
       wTd, 1) ∧
    get_recommendation true wOutcomesB wTd [wCard] =
      (RecOutcome.ok (mkResponse (scoreCard wTd wCard) [] wTd "text two"),
       wTd, 1) ∧
    (mkResponse (scoreCard wTd wCard) [] wTd "text one").recommended_card.card_id =
      (mkResponse (scoreCard wTd wCard) [] wTd "text two").recommended_card.card_id :=
  ⟨rfl, rfl,
   (ai_text_does_not_change_ranking true wOutcomesA wOutcomesB wTd [wCard]
     (mkResponse (scoreCard wTd wCard) [] wTd "text one")
     (mkResponse (scoreCard wTd wCard) [] wTd "text two")
     wTd wTd 1 1 (scoreCard wTd wCard) rfl rfl rfl).1⟩

/-! ### C7: the explanation composer -/

/-- A character list is a prefix of itself extended on the right. -/
theorem listStartsWith_append (l r : List Char) :
    listStartsWith l (l ++ r) = true := by
  induction l with
  | nil => rfl
  | cons a as ih => simp [listStartsWith, ih]

/-- A string of length more than 20 is non-empty. -/
theorem ne_empty_of_long (s : String) (h : 20 < strLen s) : s ≠ "" := by
  intro he
  rw [he] at h
  exact absurd h (by decide)

/-- C7: for every ranked list and AI text, the composed explanation
equals the §4.4 reference composition (deterministic lead with the
points clause exactly when the top points are positive, then up to two
runner-up figures, then the AI text truncated to 300 characters exactly
when its length exceeds 20, the deterministic portion alone otherwise —
in particular for the empty AI text); the result begins with the
top-ranked card's name; and the appended AI portion never exceeds 300
characters. -/
theorem build_enhanced_explanation_matches_spec (best : ScoredCard)
    (rest : List ScoredCard) (td : TransactionData) (ai : String) :
    build_enhanced_explanation (best :: rest) td ai =
      specCompose (best :: rest) ai ∧
    listStartsWith best.card.card_name.data
      (build_enhanced_explanation (best :: rest) td ai).data = true ∧
    strLen (strTake ai 300) ≤ 300 := by
  refine ⟨?_, ?_, ?_⟩
  · by_cases hlen : 20 < strLen ai
    · have hne : ai ≠ "" := ne_empty_of_long ai hlen
      simp [build_enhanced_explanation, specCompose, hlen, hne]
    · simp [build_enhanced_explanation, specCompose, hlen]
  · simp only [build_enhanced_explanation]
    split_ifs <;>
      simp [joinSep, String.data_append, List.append_assoc, listStartsWith_append]
  · simp only [strLen, strTake, List.length_take]
    exact min_le_left _ _

end CCRM
